import Mathlib

/-!
Shallow embedding of the TaskFlow state-and-persistence layer.

Sources:
* storage module (`src/unnamed/part_000`): `StorageManager` — gateway over
  `localStorage`, repository CRUD over tasks / categories / settings, and the
  import/export codec.
* `src/js/app.js`: `AppController.sortTasks` — the derived-view ordering.

Modelling conventions:
* `localStorage` is a `Store`: three optional typed slots plus an `avail`
  flag standing for whether the backing store works at the moment of a call
  (`setItem`/`getItem` throw exactly when `avail = false`; every JS
  `try/catch` around a storage access becomes a test of `avail`).
  A stored slot holds the decoded value; `none` models an absent key.
* JS timestamps (`Date.now()`, `new Date().toISOString()`) are a `Nat`
  parameter `now` supplied per call; `Math.random().toString(36).substr(2,9)`
  is a `String` parameter `rand`. `dueDate` is modelled by its timeline
  value as a `Nat` (parsing a date-only string with `new Date` is monotone).
* The settings record is a JS object used as an open map: an association
  list, where assigning an existing key overwrites it in place and a new
  key is appended (JS property-order semantics).
* `JSON.stringify`/`JSON.parse` round-trip structurally: the export document
  is the `Snapshot` structure, and `importData` receives `none` when
  `JSON.parse` would throw on its text input.
-/

namespace TaskFlow

/-- Task priority: one of the strings high / medium / low. -/
inductive Priority where
  | high
  | medium
  | low
deriving DecidableEq

/-- A task record (storage module, created by `addTask`). -/
structure Task where
  id : String
  title : String
  description : Option String
  category : String
  priority : Priority
  dueDate : Nat
  completed : Bool
  createdAt : Nat
  completedAt : Option Nat
deriving DecidableEq

/-- A category record. -/
structure Category where
  id : String
  name : String
  color : String
deriving DecidableEq

/-- The settings record: a JS object treated as an open string map. -/
abbrev Settings := List (String × String)

/-- `DEFAULT_CATEGORIES` from the storage module. -/
def DEFAULT_CATEGORIES : List Category :=
  [ { id := "cat_1", name := "Work", color := "#3b82f6" },
    { id := "cat_2", name := "Personal", color := "#8b5cf6" },
    { id := "cat_3", name := "Shopping", color := "#ec4899" },
    { id := "cat_4", name := "Health", color := "#10b981" } ]

/-- `DEFAULT_SETTINGS` from the storage module. -/
def DEFAULT_SETTINGS : Settings :=
  [ ("theme", "light"), ("sortBy", "date"),
    ("filterCategory", "all"), ("filterStatus", "all") ]

/-- The backing key-value store: the three named slots (`none` = key absent)
plus whether `localStorage` operations succeed at the moment of a call. -/
structure Store where
  avail : Bool
  tasks : Option (List Task)
  categories : Option (List Category)
  settings : Option Settings
deriving DecidableEq

/-- `StorageManager.isLocalStorageAvailable`: the write-then-delete probe
succeeds exactly when the store currently works. -/
def isLocalStorageAvailable (s : Store) : Bool :=
  s.avail

/-- `StorageManager.getTasks`: parse the tasks slot, fall back to `[]` when
the slot is absent or the storage access throws. -/
def getTasks (s : Store) : List Task :=
  if s.avail then s.tasks.getD [] else []

/-- `StorageManager.saveTasks`: `setItem` on the tasks slot; returns the
success flag and the store after the call. -/
def saveTasks (s : Store) (ts : List Task) : Bool × Store :=
  if s.avail then (true, { s with tasks := some ts }) else (false, s)

/-- `StorageManager.getCategories`: fall back to `DEFAULT_CATEGORIES`. -/
def getCategories (s : Store) : List Category :=
  if s.avail then s.categories.getD DEFAULT_CATEGORIES else DEFAULT_CATEGORIES

/-- `StorageManager.saveCategories`. -/
def saveCategories (s : Store) (cs : List Category) : Bool × Store :=
  if s.avail then (true, { s with categories := some cs }) else (false, s)

/-- `StorageManager.getSettings`: fall back to `DEFAULT_SETTINGS`. -/
def getSettings (s : Store) : Settings :=
  if s.avail then s.settings.getD DEFAULT_SETTINGS else DEFAULT_SETTINGS

/-- `StorageManager.saveSettings`. -/
def saveSettings (s : Store) (st : Settings) : Bool × Store :=
  if s.avail then (true, { s with settings := some st }) else (false, s)

/-- `StorageManager.initialize`: if the probe fails, warn and return without
touching the store; otherwise seed each absent slot with its default. -/
def initStorage (s : Store) : Store :=
  if !isLocalStorageAvailable s then s
  else
    let s1 := if (s.tasks).isNone then (saveTasks s []).2 else s
    let s2 := if (s1.categories).isNone then (saveCategories s1 DEFAULT_CATEGORIES).2 else s1
    let s3 := if (s2.settings).isNone then (saveSettings s2 DEFAULT_SETTINGS).2 else s2
    s3

/-- The caller-supplied fields of a new task (the form data handed to
`addTask`; identity and completion fields are set by `addTask` itself). -/
structure TaskFields where
  title : String
  description : Option String
  category : String
  priority : Priority
  dueDate : Nat
deriving DecidableEq

/-- The task object `addTask` builds: fresh id
`task_<Date.now()>_<random suffix>`, `createdAt` = now, `completed` =
false, `completedAt` = null. -/
def mkTask (now : Nat) (rand : String) (f : TaskFields) : Task :=
  { id := "task_" ++ toString now ++ "_" ++ rand,
    title := f.title, description := f.description,
    category := f.category, priority := f.priority, dueDate := f.dueDate,
    completed := false, createdAt := now, completedAt := none }

/-- `StorageManager.addTask`: stamp identity and completion fields onto the
caller's object, push it at the end, persist. -/
def addTask (s : Store) (now : Nat) (rand : String) (f : TaskFields) : Bool × Store :=
  saveTasks s (getTasks s ++ [mkTask now rand f])

/-- An `updates` argument for `updateTask`: each field is present
(overriding) or absent (preserved) — the shallow-merge
`\x7b ...task, ...updates \x7d` of the source. -/
structure TaskPatch where
  id : Option String := none
  title : Option String := none
  description : Option (Option String) := none
  category : Option String := none
  priority : Option Priority := none
  dueDate : Option Nat := none
  completed : Option Bool := none
  createdAt : Option Nat := none
  completedAt : Option (Option Nat) := none
deriving DecidableEq

/-- The shallow merge `\x7b ...task, ...updates \x7d`: caller-supplied
fields win, absent fields are preserved. -/
def applyPatch (t : Task) (p : TaskPatch) : Task :=
  { id := p.id.getD t.id,
    title := p.title.getD t.title,
    description := p.description.getD t.description,
    category := p.category.getD t.category,
    priority := p.priority.getD t.priority,
    dueDate := p.dueDate.getD t.dueDate,
    completed := p.completed.getD t.completed,
    createdAt := p.createdAt.getD t.createdAt,
    completedAt := p.completedAt.getD t.completedAt }

/-- Replace the first element satisfying `p` by its image under `f`
(`findIndex` + in-place assignment / in-place object mutation). -/
def updateFirst (p : α → Bool) (f : α → α) : List α → List α
  | [] => []
  | a :: as => if p a then f a :: as else a :: updateFirst p f as

/-- `StorageManager.updateTask`: locate by id (`findIndex`); fail without
mutation when absent; otherwise shallow-merge at that index and persist. -/
def updateTask (s : Store) (taskId : String) (updates : TaskPatch) : Bool × Store :=
  let tasks := getTasks s
  if tasks.any (fun t => t.id == taskId) then
    saveTasks s (updateFirst (fun t => t.id == taskId) (fun t => applyPatch t updates) tasks)
  else (false, s)

/-- `StorageManager.deleteTask`: filter the id out; fail without mutation
when nothing was removed. -/
def deleteTask (s : Store) (taskId : String) : Bool × Store :=
  let tasks := getTasks s
  let filteredTasks := tasks.filter (fun t => !(t.id == taskId))
  if filteredTasks.length == tasks.length then (false, s)
  else saveTasks s filteredTasks

/-- `StorageManager.toggleTaskComplete`: find the first task with the id;
fail when absent; otherwise flip `completed` and set `completedAt` to the
current timestamp when now completed, null when now incomplete. -/
def toggleTaskComplete (s : Store) (taskId : String) (now : Nat) : Bool × Store :=
  let tasks := getTasks s
  if tasks.any (fun t => t.id == taskId) then
    saveTasks s (updateFirst (fun t => t.id == taskId)
      (fun t => { t with completed := !t.completed,
                         completedAt := if !t.completed then some now else none }) tasks)
  else (false, s)

/-- `StorageManager.clearCompletedTasks`: keep only incomplete tasks. -/
def clearCompletedTasks (s : Store) : Bool × Store :=
  saveTasks s ((getTasks s).filter (fun t => !t.completed))

/-- `StorageManager.getTaskById`: first task with the id, or null. -/
def getTaskById (s : Store) (taskId : String) : Option Task :=
  (getTasks s).find? (fun t => t.id == taskId)

/-- JS `String.prototype.toLowerCase`, as a structural character map so
that concrete instances reduce (ASCII-adequate, like `Char.toLower`). -/
def toLowerCase (s : String) : String :=
  String.mk (s.data.map Char.toLower)

/-- The caller-supplied fields of a new category. -/
structure CategoryFields where
  name : String
  color : String
deriving DecidableEq

/-- `StorageManager.addCategory`: reject when some existing category has
the same lower-cased name; otherwise stamp id `cat_<Date.now()>`, push,
persist. -/
def addCategory (s : Store) (now : Nat) (c : CategoryFields) : Bool × Store :=
  let categories := getCategories s
  if categories.any (fun x => toLowerCase x.name == toLowerCase c.name) then (false, s)
  else
    saveCategories s
      (categories ++ [{ id := "cat_" ++ toString now, name := c.name, color := c.color }])

/-- `StorageManager.getCategoryById`. -/
def getCategoryById (s : Store) (categoryId : String) : Option Category :=
  (getCategories s).find? (fun c => c.id == categoryId)

/-- Assignment `settings[key] = value` on the JS object: overwrite an
existing key in place, append a fresh key. -/
def setKey (m : Settings) (k v : String) : Settings :=
  if m.any (fun p => p.1 == k) then m.map (fun p => if p.1 == k then (k, v) else p)
  else m ++ [(k, v)]

/-- Property lookup on the settings object. -/
def getKey (m : Settings) (k : String) : Option String :=
  (m.find? (fun p => p.1 == k)).map (fun p => p.2)

/-- `StorageManager.updateSetting`: merge one key into the settings record
and persist. -/
def updateSetting (s : Store) (k v : String) : Bool × Store :=
  saveSettings s (setKey (getSettings s) k v)

/-- The export document (`JSON.parse` of `exportData`'s text): top-level
fields may be absent in an arbitrary imported document. -/
structure Snapshot where
  tasks : Option (List Task)
  categories : Option (List Category)
  settings : Option Settings
  exportDate : String
  version : String
deriving DecidableEq

/-- `StorageManager.exportData`: bundle the three collections with an
export timestamp and version tag. -/
def exportData (s : Store) (exportDate : String) : Snapshot :=
  { tasks := some (getTasks s), categories := some (getCategories s),
    settings := some (getSettings s), exportDate := exportDate, version := "1.0" }

/-- `StorageManager.importData`: `none` models text `JSON.parse` throws on.
Throw (caught, returning failure without mutation) when `tasks` or
`categories` is absent; otherwise save tasks and categories, and settings
only when present; return success regardless of the saves' outcomes. -/
def importData (s : Store) (doc : Option Snapshot) : Bool × Store :=
  match doc with
  | none => (false, s)
  | some data =>
    if data.tasks.isNone || data.categories.isNone then (false, s)
    else
      let s1 := (saveTasks s (data.tasks.getD [])).2
      let s2 := (saveCategories s1 (data.categories.getD [])).2
      let s3 := match data.settings with
        | some st => (saveSettings s2 st).2
        | none => s2
      (true, s3)

/-- The sort criteria accepted by `AppController.sortTasks`; any other
string falls to the comparator's default branch. -/
inductive SortBy where
  | date
  | priority
  | alphabetical
  | other
deriving DecidableEq

/-- `priorityOrder` from `sortTasks`: high 0, medium 1, low 2. -/
def priorityOrder : Priority → Int
  | .high => 0
  | .medium => 1
  | .low => 2

/-- The sign contract of `String.prototype.localeCompare`. -/
def strCmp (a b : String) : Int :=
  if a < b then -1 else if b < a then 1 else 0

/-- The comparator passed to `sorted.sort` in `AppController.sortTasks`:
incomplete before completed, then the secondary key per `sortBy`. -/
def taskCmp (sortBy : SortBy) (a b : Task) : Int :=
  if a.completed != b.completed then (if a.completed then 1 else -1)
  else
    match sortBy with
    | .date => (a.dueDate : Int) - (b.dueDate : Int)
    | .priority => priorityOrder a.priority - priorityOrder b.priority
    | .alphabetical => strCmp a.title b.title
    | .other => 0

/-- The non-strict order induced by the comparator (`a` may precede `b`
exactly when the comparator is non-positive). -/
def taskLE (sortBy : SortBy) (a b : Task) : Bool :=
  taskCmp sortBy a b ≤ 0

/-- `AppController.sortTasks`: a stable sort (ES2019 `Array.prototype.sort`)
of a copy of the list under the comparator. -/
def sortTasks (tasks : List Task) (sortBy : SortBy) : List Task :=
  tasks.mergeSort (taskLE sortBy)

/-- The task invariant of the spec's data model: incomplete tasks have no
completion timestamp; completed tasks carry one no earlier than their
creation. -/
def taskOK (t : Task) : Bool :=
  if t.completed then
    match t.completedAt with
    | some c => t.createdAt ≤ c
    | none => false
  else t.completedAt == none

/-- The secondary ordering the spec prescribes within a completion group
for each sort criterion (no constraint for an unrecognised criterion). -/
def secLE (sortBy : SortBy) (a b : Task) : Prop :=
  match sortBy with
  | .date => a.dueDate ≤ b.dueDate
  | .priority => priorityOrder a.priority ≤ priorityOrder b.priority
  | .alphabetical => a.title ≤ b.title
  | .other => True


/-! ### Plumbing lemmas about the gateway -/

theorem getTasks_saveTasks (s : Store) (ts : List Task) (h : s.avail = true) :
    getTasks (saveTasks s ts).2 = ts := by
  simp [getTasks, saveTasks, h]

theorem saveTasks_not_avail (s : Store) (ts : List Task) (h : s.avail = false) :
    saveTasks s ts = (false, s) := by
  simp [saveTasks, h]

theorem getTasks_not_avail (s : Store) (h : s.avail = false) :
    getTasks s = [] := by
  simp [getTasks, h]

theorem getTasks_saveCategories (s : Store) (cs : List Category) :
    getTasks (saveCategories s cs).2 = getTasks s := by
  by_cases h : s.avail <;> simp [getTasks, saveCategories, h]

theorem getTasks_saveSettings (s : Store) (st : Settings) :
    getTasks (saveSettings s st).2 = getTasks s := by
  by_cases h : s.avail <;> simp [getTasks, saveSettings, h]

theorem getCategories_saveTasks (s : Store) (ts : List Task) :
    getCategories (saveTasks s ts).2 = getCategories s := by
  by_cases h : s.avail <;> simp [getCategories, saveTasks, h]

theorem getCategories_saveCategories (s : Store) (cs : List Category) (h : s.avail = true) :
    getCategories (saveCategories s cs).2 = cs := by
  simp [getCategories, saveCategories, h]

theorem getCategories_saveSettings (s : Store) (st : Settings) :
    getCategories (saveSettings s st).2 = getCategories s := by
  by_cases h : s.avail <;> simp [getCategories, saveSettings, h]

theorem getSettings_saveTasks (s : Store) (ts : List Task) :
    getSettings (saveTasks s ts).2 = getSettings s := by
  by_cases h : s.avail <;> simp [getSettings, saveTasks, h]

theorem getSettings_saveCategories (s : Store) (cs : List Category) :
    getSettings (saveCategories s cs).2 = getSettings s := by
  by_cases h : s.avail <;> simp [getSettings, saveCategories, h]

theorem getSettings_saveSettings (s : Store) (st : Settings) (h : s.avail = true) :
    getSettings (saveSettings s st).2 = st := by
  simp [getSettings, saveSettings, h]

theorem avail_saveTasks (s : Store) (ts : List Task) :
    (saveTasks s ts).2.avail = s.avail := by
  by_cases h : s.avail <;> simp [saveTasks, h]

theorem avail_saveCategories (s : Store) (cs : List Category) :
    (saveCategories s cs).2.avail = s.avail := by
  by_cases h : s.avail <;> simp [saveCategories, h]

/-! ### Lemmas about `updateFirst` -/

theorem length_updateFirst (p : α → Bool) (f : α → α) (l : List α) :
    (updateFirst p f l).length = l.length := by
  induction l with
  | nil => rfl
  | cons a as ih => by_cases h : p a <;> simp [updateFirst, h, ih]

theorem mem_updateFirst {p : α → Bool} {f : α → α} {l : List α} {t : α}
    (h : t ∈ updateFirst p f l) :
    t ∈ l ∨ ∃ u, u ∈ l ∧ p u = true ∧ t = f u := by
  induction l with
  | nil => simp [updateFirst] at h
  | cons a as ih =>
    by_cases hpa : p a
    · rw [updateFirst, if_pos hpa] at h
      rcases List.mem_cons.mp h with h1 | h1
      · exact Or.inr ⟨a, List.mem_cons_self a as, hpa, h1⟩
      · exact Or.inl (List.mem_cons_of_mem a h1)
    · rw [updateFirst, if_neg hpa] at h
      rcases List.mem_cons.mp h with h1 | h1
      · exact Or.inl (h1 ▸ List.mem_cons_self a as)
      · rcases ih h1 with h2 | ⟨u, hu, hpu, ht⟩
        · exact Or.inl (List.mem_cons_of_mem a h2)
        · exact Or.inr ⟨u, List.mem_cons_of_mem a hu, hpu, ht⟩

theorem getD_updateFirst_of_ne (p : α → Bool) (f : α → α) (l : List α) (i : Nat) (d : α)
    (h : p (l.getD i d) = false) :
    (updateFirst p f l).getD i d = l.getD i d := by
  induction l generalizing i with
  | nil => rfl
  | cons a as ih =>
    cases i with
    | zero =>
      have hpa : p a = false := by simpa using h
      simp [updateFirst, hpa]
    | succ n =>
      by_cases hpa : p a
      · simp [updateFirst, hpa]
      · simp only [updateFirst, if_neg hpa, List.getD_cons_succ] at h ⊢
        exact ih n h

theorem map_updateFirst (p : α → Bool) (f : α → α) (g : α → β) (l : List α)
    (h : ∀ a, g (f a) = g a) : (updateFirst p f l).map g = l.map g := by
  induction l with
  | nil => rfl
  | cons a as ih => by_cases hpa : p a <;> simp [updateFirst, hpa, h, ih]

/-! ### Lemmas about the settings map -/

theorem find_subst_same (m : Settings) (k v : String)
    (h : m.any (fun p => p.1 == k) = true) :
    (m.map (fun p => if p.1 == k then (k, v) else p)).find? (fun p => p.1 == k) = some (k, v) := by
  induction m with
  | nil => simp at h
  | cons a as ih =>
    rw [List.map_cons]
    by_cases ha : (a.1 == k) = true
    · rw [if_pos ha]
      exact List.find?_cons_of_pos _ (by simp)
    · have ha' : (a.1 == k) = false := by simpa using ha
      rw [if_neg ha]
      simp only [List.find?_cons, ha']
      apply ih
      simpa [List.any_cons, ha'] using h

theorem find_subst_other (m : Settings) (k v k' : String) (hne : k' ≠ k) :
    (m.map (fun p => if p.1 == k then (k, v) else p)).find? (fun p => p.1 == k') =
      m.find? (fun p => p.1 == k') := by
  have hkk : ((k : String) == k') = false := by
    simp only [beq_eq_false_iff_ne, ne_eq]
    exact fun hh => hne hh.symm
  induction m with
  | nil => rfl
  | cons a as ih =>
    rw [List.map_cons]
    by_cases ha : (a.1 == k) = true
    · have ha' : a.1 = k := by simpa using ha
      have h2 : (a.1 == k') = false := by rw [ha']; exact hkk
      rw [if_pos ha]
      simp only [List.find?_cons, hkk, h2, ih]
    · rw [if_neg ha]
      by_cases ha2 : (a.1 == k') = true
      · simp only [List.find?_cons, ha2]
      · have ha2' : (a.1 == k') = false := by simpa using ha2
        simp only [List.find?_cons, ha2', ih]

theorem not_any_find_none (m : Settings) (k : String)
    (h : m.any (fun p => p.1 == k) = false) :
    m.find? (fun p => p.1 == k) = none := by
  rw [List.find?_eq_none]
  intro x hx
  have := (List.any_eq_false).mp h x hx
  simpa using this

theorem getKey_setKey_same (m : Settings) (k v : String) :
    getKey (setKey m k v) k = some v := by
  unfold setKey getKey
  by_cases h : m.any (fun p => p.1 == k)
  · rw [if_pos h, find_subst_same m k v h]
    rfl
  · have h' : m.any (fun p => p.1 == k) = false := Bool.eq_false_iff.mpr h
    rw [if_neg h, List.find?_append, not_any_find_none m k h']
    simp

theorem getKey_setKey_other (m : Settings) (k v k' : String) (hne : k' ≠ k) :
    getKey (setKey m k v) k' = getKey m k' := by
  unfold setKey getKey
  by_cases h : m.any (fun p => p.1 == k)
  · rw [if_pos h, find_subst_other m k v k' hne]
  · rw [if_neg h, List.find?_append]
    have hk : ((k : String) == k') = false := by
      simp only [beq_eq_false_iff_ne, ne_eq]
      exact fun hh => hne hh.symm
    cases hf : m.find? (fun p => p.1 == k') <;> simp [hf, hk, List.find?_cons]

/-! ### Lemmas about the sort comparator -/

theorem strCmp_nonpos (a b : String) : strCmp a b ≤ 0 ↔ a ≤ b := by
  unfold strCmp
  rcases lt_trichotomy a b with h | h | h
  · simp [h, le_of_lt h]
  · simp [h]
  · simp [not_lt_of_gt h, h, not_le_of_gt h]

theorem taskLE_iff (sb : SortBy) (a b : Task) :
    taskLE sb a b = true ↔
      ((a.completed = false ∧ b.completed = true) ∨
       (a.completed = b.completed ∧ secLE sb a b)) := by
  unfold taskLE taskCmp
  by_cases ha : a.completed <;> by_cases hb : b.completed <;>
    cases sb <;>
    simp [ha, hb, secLE, strCmp_nonpos]

theorem taskLE_trans (sb : SortBy) (a b c : Task)
    (h1 : taskLE sb a b) (h2 : taskLE sb b c) : taskLE sb a c := by
  rw [taskLE_iff] at h1 h2 ⊢
  rcases h1 with ⟨ha, hb⟩ | ⟨hab, hs1⟩ <;> rcases h2 with ⟨hb2, hc⟩ | ⟨hbc, hs2⟩
  · rw [hb] at hb2; exact absurd hb2 (by simp)
  · exact Or.inl ⟨ha, hbc ▸ hb⟩
  · exact Or.inl ⟨hab ▸ hb2, hc⟩
  · refine Or.inr ⟨hab.trans hbc, ?_⟩
    cases sb
    · exact le_trans (a := Task.dueDate a) hs1 hs2
    · exact le_trans (a := priorityOrder a.priority) hs1 hs2
    · exact le_trans (a := Task.title a) hs1 hs2
    · trivial

theorem taskLE_total (sb : SortBy) (a b : Task) : taskLE sb a b || taskLE sb b a := by
  rw [Bool.or_eq_true, taskLE_iff, taskLE_iff]
  by_cases hab : a.completed = b.completed
  · have htot : secLE sb a b ∨ secLE sb b a := by
      cases sb <;> simp only [secLE]
      · exact le_total _ _
      · exact le_total _ _
      · exact le_total _ _
      · exact Or.inl trivial
    rcases htot with h | h
    · exact Or.inl (Or.inr ⟨hab, h⟩)
    · exact Or.inr (Or.inr ⟨hab.symm, h⟩)
  · by_cases ha : a.completed
    · have hb : b.completed = false := by
        cases hbv : b.completed
        · rfl
        · exact absurd (ha.trans hbv.symm) hab
      exact Or.inr (Or.inl ⟨hb, ha⟩)
    · have ha' : a.completed = false := by simpa using ha
      have hb : b.completed = true := by
        cases hbv : b.completed
        · exact absurd (ha'.trans hbv.symm) hab
        · rfl
      exact Or.inl (Or.inl ⟨ha', hb⟩)

/-! ### Claim theorems -/

/-- Claim C4: for every task list and sort criterion, the derived view
places every incomplete task before every completed one; within each
completion group it is ordered by the secondary key of the criterion; and
ties under the comparator keep their relative input order (stability). -/
theorem C4_sort_ordering_stable (tasks : List Task) (sb : SortBy) :
    ((sortTasks tasks sb).Pairwise (fun a b => a.completed = true → b.completed = true))
    ∧ ((sortTasks tasks sb).Pairwise (fun a b => a.completed = b.completed → secLE sb a b))
    ∧ (∀ a b : Task, List.Sublist [a, b] tasks → taskCmp sb a b = 0 →
        List.Sublist [a, b] (sortTasks tasks sb)) := by
  have hs : (sortTasks tasks sb).Pairwise (fun a b => taskLE sb a b = true) :=
    List.sorted_mergeSort (taskLE_trans sb) (taskLE_total sb) tasks
  refine ⟨?_, ?_, ?_⟩
  · refine hs.imp ?_
    intro a b hle ha
    rcases (taskLE_iff sb a b).mp hle with ⟨h1, h2⟩ | ⟨h1, h2⟩
    · rw [ha] at h1; exact absurd h1 (by simp)
    · exact h1 ▸ ha
  · refine hs.imp ?_
    intro a b hle hab
    rcases (taskLE_iff sb a b).mp hle with ⟨h1, h2⟩ | ⟨h1, h2⟩
    · rw [hab] at h1; rw [h1] at h2; exact absurd h2 (by simp)
    · exact h2
  · intro a b hsub hcmp
    apply List.pair_sublist_mergeSort (taskLE_trans sb) (taskLE_total sb)
    · show taskLE sb a b = true
      unfold taskLE
      rw [hcmp]
      rfl
    · exact hsub

/-- Witness for C4 at a concrete two-task tie under the date criterion. -/
theorem C4_sort_ordering_stable_witness :
    List.Sublist
      ([⟨"a", "Alpha", none, "cat_1", .low, 7, false, 0, none⟩,
        ⟨"b", "Beta", none, "cat_1", .high, 7, false, 0, none⟩] : List Task)
      ([⟨"a", "Alpha", none, "cat_1", .low, 7, false, 0, none⟩,
        ⟨"b", "Beta", none, "cat_1", .high, 7, false, 0, none⟩] : List Task)
    ∧ taskCmp .date ⟨"a", "Alpha", none, "cat_1", .low, 7, false, 0, none⟩
        ⟨"b", "Beta", none, "cat_1", .high, 7, false, 0, none⟩ = 0
    ∧ List.Sublist
        ([⟨"a", "Alpha", none, "cat_1", .low, 7, false, 0, none⟩,
          ⟨"b", "Beta", none, "cat_1", .high, 7, false, 0, none⟩] : List Task)
        (sortTasks
          [⟨"a", "Alpha", none, "cat_1", .low, 7, false, 0, none⟩,
           ⟨"b", "Beta", none, "cat_1", .high, 7, false, 0, none⟩] .date) :=
  ⟨List.Sublist.refl _, by decide,
   (C4_sort_ordering_stable
      [⟨"a", "Alpha", none, "cat_1", .low, 7, false, 0, none⟩,
       ⟨"b", "Beta", none, "cat_1", .high, 7, false, 0, none⟩] .date).2.2
     _ _ (List.Sublist.refl _) (by decide)⟩

/-- Claim C5: importing the export of the current state succeeds and leaves
the three observed collections unchanged, for every store state. -/
theorem C5_export_import_roundtrip (s : Store) (d : String) :
    (importData s (some (exportData s d))).1 = true
    ∧ getTasks (importData s (some (exportData s d))).2 = getTasks s
    ∧ getCategories (importData s (some (exportData s d))).2 = getCategories s
    ∧ getSettings (importData s (some (exportData s d))).2 = getSettings s := by
  by_cases h : s.avail = true
  · simp [importData, exportData, saveTasks, saveCategories, saveSettings,
      getTasks, getCategories, getSettings, h]
  · have h' : s.avail = false := Bool.eq_false_iff.mpr h
    simp [importData, exportData, saveTasks, saveCategories, saveSettings,
      getTasks, getCategories, getSettings, h']

/-- Claim C6: an unparsable import document, or one missing the top-level
tasks or categories field, makes `importData` fail and leaves the whole
store (all three slots) untouched. -/
theorem C6_import_invalid_no_mutation (s : Store) (doc : Option Snapshot)
    (h : doc = none ∨ ∃ d, doc = some d ∧ (d.tasks = none ∨ d.categories = none)) :
    importData s doc = (false, s) := by
  rcases h with h | ⟨d, hd, h2⟩
  · rw [h]; rfl
  · rw [hd]
    unfold importData
    rcases h2 with h2 | h2 <;> simp [h2]

/-- Witness for C6 at the unparsable-document input. -/
theorem C6_import_invalid_no_mutation_witness :
    ((none : Option Snapshot) = none
      ∨ ∃ d, (none : Option Snapshot) = some d ∧ (d.tasks = none ∨ d.categories = none))
    ∧ importData ⟨true, some [], none, none⟩ none = (false, ⟨true, some [], none, none⟩) :=
  ⟨Or.inl rfl, C6_import_invalid_no_mutation ⟨true, some [], none, none⟩ none (Or.inl rfl)⟩

/-- Claim C7: creating a category whose name case-insensitively matches an
existing one fails without mutation; and the Work / WORK scenario leaves
exactly one category named (case-insensitively) work, the second call
failing. -/
theorem C7_duplicate_category_rejected (s : Store) (c : CategoryFields) (now : Nat)
    (hdup : (getCategories s).any (fun x => toLowerCase x.name == toLowerCase c.name) = true) :
    addCategory s now c = (false, s)
    ∧ (addCategory ⟨true, none, some [], none⟩ 100 ⟨"Work", "#111111"⟩).1 = true
    ∧ (addCategory (addCategory ⟨true, none, some [], none⟩ 100 ⟨"Work", "#111111"⟩).2 200
        ⟨"WORK", "#222222"⟩).1 = false
    ∧ ((getCategories (addCategory (addCategory ⟨true, none, some [], none⟩ 100
          ⟨"Work", "#111111"⟩).2 200 ⟨"WORK", "#222222"⟩).2).filter
        (fun x => toLowerCase x.name == "work")).length = 1 := by
  refine ⟨?_, by decide, by decide, by decide⟩
  unfold addCategory
  simp [hdup]

/-- Witness for C7 at a concrete duplicate-name input. -/
theorem C7_duplicate_category_rejected_witness :
    ((getCategories ⟨true, none, some [⟨"cat_9", "Work", "#000000"⟩], none⟩).any
        (fun x => toLowerCase x.name
          == toLowerCase (CategoryFields.mk "woRK" "#333333").name) = true)
    ∧ addCategory ⟨true, none, some [⟨"cat_9", "Work", "#000000"⟩], none⟩ 300
        (CategoryFields.mk "woRK" "#333333")
      = (false, ⟨true, none, some [⟨"cat_9", "Work", "#000000"⟩], none⟩) :=
  ⟨by decide,
   (C7_duplicate_category_rejected ⟨true, none, some [⟨"cat_9", "Work", "#000000"⟩], none⟩
      (CategoryFields.mk "woRK" "#333333") 300 (by decide)).1⟩

/-- Claim C9: `updateSetting` stores the value under the given key — known
or unknown — and every other key of the settings record reads as before. -/
theorem C9_updateSetting_open_map (s : Store) (k v : String) (h : s.avail = true) :
    getKey (getSettings (updateSetting s k v).2) k = some v
    ∧ ∀ k' : String, k' ≠ k →
        getKey (getSettings (updateSetting s k v).2) k' = getKey (getSettings s) k' := by
  unfold updateSetting
  rw [getSettings_saveSettings _ _ h]
  exact ⟨getKey_setKey_same _ _ _, fun k' hk => getKey_setKey_other _ _ _ _ hk⟩

/-- Witness for C9: the theme/dark scenario with sortBy previously set. -/
theorem C9_updateSetting_open_map_witness :
    (Store.avail ⟨true, none, none, some [("sortBy", "alphabetical")]⟩ = true)
    ∧ getKey (getSettings (updateSetting ⟨true, none, none, some [("sortBy", "alphabetical")]⟩
        "theme" "dark").2) "theme" = some "dark"
    ∧ (("sortBy" : String) ≠ "theme")
    ∧ getKey (getSettings (updateSetting ⟨true, none, none, some [("sortBy", "alphabetical")]⟩
        "theme" "dark").2) "sortBy"
      = getKey (getSettings ⟨true, none, none, some [("sortBy", "alphabetical")]⟩) "sortBy" :=
  ⟨rfl,
   (C9_updateSetting_open_map ⟨true, none, none, some [("sortBy", "alphabetical")]⟩
      "theme" "dark" rfl).1,
   by decide,
   (C9_updateSetting_open_map ⟨true, none, none, some [("sortBy", "alphabetical")]⟩
      "theme" "dark" rfl).2 "sortBy" (by decide)⟩

/-- Claim C1 fails on the code: no degraded flag is latched by the failed
probe. The initial store state of the session is unavailable, so the probe
fails; yet at a later call of the same session where the backing store
works again, the write succeeds and the subsequent read returns the stored
tasks rather than absent — each operation consults the store afresh. -/
theorem C1_probe_failure_not_latched :
    isLocalStorageAvailable ⟨false, none, none, none⟩ = false
    ∧ (saveTasks ⟨true, none, none, none⟩
        [⟨"task_1_a", "A", none, "cat_1", .low, 3, false, 1, none⟩]).1 = true
    ∧ getTasks (saveTasks ⟨true, none, none, none⟩
        [⟨"task_1_a", "A", none, "cat_1", .low, 3, false, 1, none⟩]).2
      = [⟨"task_1_a", "A", none, "cat_1", .low, 3, false, 1, none⟩] :=
  ⟨rfl, rfl, rfl⟩

/-- Claim C1 amended: per-call degraded semantics. At any call where the
backing store is unavailable, initialization seeds nothing, every write to
any slot is a no-op returning failure, and every read returns its in-memory
default — but nothing is latched across calls. -/
theorem C1_degraded_call_semantics (s : Store) (ts : List Task)
    (cs : List Category) (st : Settings) (h : s.avail = false) :
    initStorage s = s
    ∧ saveTasks s ts = (false, s)
    ∧ saveCategories s cs = (false, s)
    ∧ saveSettings s st = (false, s)
    ∧ getTasks s = []
    ∧ getCategories s = DEFAULT_CATEGORIES
    ∧ getSettings s = DEFAULT_SETTINGS := by
  unfold initStorage
  simp [isLocalStorageAvailable, h, saveTasks, saveCategories, saveSettings,
    getTasks, getCategories, getSettings]

/-- Witness for the amended C1 at a concrete unavailable store. -/
theorem C1_degraded_call_semantics_witness :
    (Store.avail ⟨false, none, none, none⟩ = false)
    ∧ (initStorage ⟨false, none, none, none⟩ = ⟨false, none, none, none⟩
       ∧ saveTasks ⟨false, none, none, none⟩ [] = (false, ⟨false, none, none, none⟩)
       ∧ saveCategories ⟨false, none, none, none⟩ [] = (false, ⟨false, none, none, none⟩)
       ∧ saveSettings ⟨false, none, none, none⟩ [] = (false, ⟨false, none, none, none⟩)
       ∧ getTasks ⟨false, none, none, none⟩ = []
       ∧ getCategories ⟨false, none, none, none⟩ = DEFAULT_CATEGORIES
       ∧ getSettings ⟨false, none, none, none⟩ = DEFAULT_SETTINGS) :=
  ⟨rfl, C1_degraded_call_semantics ⟨false, none, none, none⟩ [] [] [] rfl⟩

/-- Claim C3 fails on the code: the shallow merge lets a caller-supplied
`id` field overwrite the task id (`createdAt` likewise). Updating the task
with id a by the patch containing only `id := b` changes its id. -/
theorem C3_update_can_change_id :
    (getTasks ⟨true, some [⟨"a", "A", none, "cat_1", .low, 3, false, 1, none⟩], none, none⟩).map
        (fun t => t.id) = ["a"]
    ∧ (getTasks (updateTask
          ⟨true, some [⟨"a", "A", none, "cat_1", .low, 3, false, 1, none⟩], none, none⟩
          "a" { id := some "b" }).2).map (fun t => t.id) = ["b"] :=
  ⟨by decide, by decide⟩

/-- Claim C3 amended: `updateTask` preserves every task's `id` and
`createdAt` whenever the patch does not itself carry those fields (the code
performs no guard, so a patch carrying them overwrites them). -/
theorem C3_id_createdAt_immutable (s : Store) (tid : String) (p : TaskPatch)
    (h1 : p.id = none) (h2 : p.createdAt = none) :
    (getTasks (updateTask s tid p).2).map (fun t => t.id)
      = (getTasks s).map (fun t => t.id)
    ∧ (getTasks (updateTask s tid p).2).map (fun t => t.createdAt)
      = (getTasks s).map (fun t => t.createdAt) := by
  by_cases hany : (getTasks s).any (fun t => t.id == tid) = true
  · have hav : s.avail = true := by
      by_contra hc
      rw [getTasks_not_avail s (Bool.eq_false_iff.mpr hc)] at hany
      simp at hany
    unfold updateTask
    simp only [hany, if_true]
    rw [getTasks_saveTasks _ _ hav]
    constructor
    · exact map_updateFirst _ _ _ _ (fun t => by simp [applyPatch, h1])
    · exact map_updateFirst _ _ _ _ (fun t => by simp [applyPatch, h2])
  · simp [updateTask, Bool.eq_false_iff.mpr hany]

/-- Witness for the amended C3 at a concrete title-only patch. -/
theorem C3_id_createdAt_immutable_witness :
    (TaskPatch.id { title := some "T2" } = none)
    ∧ (TaskPatch.createdAt { title := some "T2" } = none)
    ∧ ((getTasks (updateTask
          ⟨true, some [⟨"a", "A", none, "cat_1", .low, 3, false, 1, none⟩], none, none⟩
          "a" { title := some "T2" }).2).map (fun t => t.id)
        = (getTasks ⟨true, some [⟨"a", "A", none, "cat_1", .low, 3, false, 1, none⟩],
            none, none⟩).map (fun t => t.id)
       ∧ (getTasks (updateTask
            ⟨true, some [⟨"a", "A", none, "cat_1", .low, 3, false, 1, none⟩], none, none⟩
            "a" { title := some "T2" }).2).map (fun t => t.createdAt)
          = (getTasks ⟨true, some [⟨"a", "A", none, "cat_1", .low, 3, false, 1, none⟩],
              none, none⟩).map (fun t => t.createdAt)) :=
  ⟨rfl, rfl,
   C3_id_createdAt_immutable
     ⟨true, some [⟨"a", "A", none, "cat_1", .low, 3, false, 1, none⟩], none, none⟩
     "a" { title := some "T2" } rfl rfl⟩

/-- Claim C8 fails on the code: ids embed the clock (and for tasks a random
suffix) but no collision check is made. With a pre-existing task id equal
to task_5_abc, a call at the same millisecond drawing the same suffix
duplicates the id; a category created at millisecond 1 collides with the
seeded default id cat_1. -/
theorem C8_id_collision_possible :
    ((getTasks ⟨true, some [⟨"task_5_abc", "A", none, "cat_1", .low, 3, false, 1, none⟩],
        none, none⟩).map (fun t => t.id)).Nodup
    ∧ ¬ ((getTasks (addTask
          ⟨true, some [⟨"task_5_abc", "A", none, "cat_1", .low, 3, false, 1, none⟩], none, none⟩
          5 "abc" ⟨"B", none, "cat_1", .low, 3⟩).2).map (fun t => t.id)).Nodup
    ∧ ((getCategories ⟨true, none, none, none⟩).map (fun x => x.id)).Nodup
    ∧ (addCategory ⟨true, none, none, none⟩ 1 ⟨"Zeta", "#000000"⟩).1 = true
    ∧ ¬ ((getCategories (addCategory ⟨true, none, none, none⟩ 1 ⟨"Zeta", "#000000"⟩).2).map
        (fun x => x.id)).Nodup :=
  ⟨by decide, by decide, by decide, by decide, by decide⟩

/-- Claim C8 amended: the assigned ids are the deterministic strings
task_<now>_<rand> and cat_<now>; uniqueness of the stored ids is preserved
exactly when no pre-existing id equals that string — the code itself checks
nothing. -/
theorem C8_fresh_id_when_unused (s : Store) (now : Nat) (rand : String) (f : TaskFields)
    (c : CategoryFields) (now2 : Nat)
    (hnd1 : ((getTasks s).map (fun t => t.id)).Nodup)
    (h1 : (getTasks s).all (fun t => !(t.id == "task_" ++ toString now ++ "_" ++ rand)) = true)
    (hnd2 : ((getCategories s).map (fun x => x.id)).Nodup)
    (h2 : (getCategories s).all (fun x => !(x.id == "cat_" ++ toString now2)) = true) :
    ((getTasks (addTask s now rand f).2).map (fun t => t.id)).Nodup
    ∧ ((getCategories (addCategory s now2 c).2).map (fun x => x.id)).Nodup := by
  have h1' : ∀ t ∈ getTasks s, t.id ≠ "task_" ++ toString now ++ "_" ++ rand := by
    intro t ht
    have := (List.all_eq_true).mp h1 t ht
    simpa using this
  have h2' : ∀ x ∈ getCategories s, x.id ≠ "cat_" ++ toString now2 := by
    intro x hx
    have := (List.all_eq_true).mp h2 x hx
    simpa using this
  constructor
  · by_cases hav : s.avail = true
    · unfold addTask
      rw [getTasks_saveTasks _ _ hav, List.map_append]
      refine List.Nodup.append hnd1 (by simp) ?_
      intro a ha hb
      simp only [List.map_cons, List.map_nil, List.mem_singleton] at hb
      rcases List.mem_map.mp ha with ⟨t, ht, hta⟩
      exact h1' t ht (hta ▸ hb)
    · unfold addTask
      rw [saveTasks_not_avail _ _ (Bool.eq_false_iff.mpr hav)]
      exact hnd1
  · unfold addCategory
    by_cases hdup : (getCategories s).any
        (fun x => toLowerCase x.name == toLowerCase c.name) = true
    · simp only [hdup, if_true]
      exact hnd2
    · simp only [Bool.eq_false_iff.mpr hdup, Bool.false_eq_true, if_false]
      by_cases hav : s.avail = true
      · rw [getCategories_saveCategories _ _ hav, List.map_append]
        refine List.Nodup.append hnd2 (by simp) ?_
        intro a ha hb
        simp only [List.map_cons, List.map_nil, List.mem_singleton] at hb
        rcases List.mem_map.mp ha with ⟨x, hx, hxa⟩
        exact h2' x hx (hxa ▸ hb)
      · have hne : s.avail = false := Bool.eq_false_iff.mpr hav
        have : saveCategories s (getCategories s
            ++ [{ id := "cat_" ++ toString now2, name := c.name, color := c.color }])
            = (false, s) := by
          simp [saveCategories, hne]
        rw [this]
        exact hnd2

/-- Witness for the amended C8 at concrete inputs with unused id strings. -/
theorem C8_fresh_id_when_unused_witness :
    (((getTasks ⟨true, some [⟨"task_1_x", "A", none, "cat_1", .low, 3, false, 1, none⟩],
        some [], none⟩).map (fun t => t.id)).Nodup)
    ∧ ((getTasks ⟨true, some [⟨"task_1_x", "A", none, "cat_1", .low, 3, false, 1, none⟩],
        some [], none⟩).all
          (fun t => !(t.id == "task_" ++ toString 2 ++ "_" ++ "yy")) = true)
    ∧ (((getCategories ⟨true, some [⟨"task_1_x", "A", none, "cat_1", .low, 3, false, 1, none⟩],
        some [], none⟩).map (fun x => x.id)).Nodup)
    ∧ ((getCategories ⟨true, some [⟨"task_1_x", "A", none, "cat_1", .low, 3, false, 1, none⟩],
        some [], none⟩).all (fun x => !(x.id == "cat_" ++ toString 3)) = true)
    ∧ (((getTasks (addTask ⟨true, some [⟨"task_1_x", "A", none, "cat_1", .low, 3, false, 1, none⟩],
          some [], none⟩ 2 "yy" ⟨"B", none, "cat_1", .low, 3⟩).2).map (fun t => t.id)).Nodup
       ∧ ((getCategories (addCategory
            ⟨true, some [⟨"task_1_x", "A", none, "cat_1", .low, 3, false, 1, none⟩],
            some [], none⟩ 3 ⟨"Zeta", "#000000"⟩).2).map (fun x => x.id)).Nodup) :=
  ⟨by decide, by decide, by decide, by decide,
   C8_fresh_id_when_unused
     ⟨true, some [⟨"task_1_x", "A", none, "cat_1", .low, 3, false, 1, none⟩], some [], none⟩
     2 "yy" ⟨"B", none, "cat_1", .low, 3⟩ ⟨"Zeta", "#000000"⟩ 3
     (by decide) (by decide) (by decide) (by decide)⟩

/-- Claim C10: with the store available, `addTask` appends at the end,
`updateTask` and `toggleTaskComplete` preserve length and every
non-targeted position, and `deleteTask` and `clearCompletedTasks` produce
sublists — so every operation keeps the surviving tasks in their prior
relative order. -/
theorem C10_mutations_preserve_order (s : Store) (now : Nat) (rand : String)
    (f : TaskFields) (tid : String) (p : TaskPatch) (d : Task)
    (h : s.avail = true) :
    getTasks (addTask s now rand f).2 = getTasks s ++ [mkTask now rand f]
    ∧ (getTasks (updateTask s tid p).2).length = (getTasks s).length
    ∧ (∀ i : Nat, ((getTasks s).getD i d).id ≠ tid →
        (getTasks (updateTask s tid p).2).getD i d = (getTasks s).getD i d)
    ∧ (getTasks (toggleTaskComplete s tid now).2).length = (getTasks s).length
    ∧ (∀ i : Nat, ((getTasks s).getD i d).id ≠ tid →
        (getTasks (toggleTaskComplete s tid now).2).getD i d = (getTasks s).getD i d)
    ∧ List.Sublist (getTasks (deleteTask s tid).2) (getTasks s)
    ∧ List.Sublist (getTasks (clearCompletedTasks s).2) (getTasks s) := by
  refine ⟨?_, ?_, ?_, ?_, ?_, ?_, ?_⟩
  · unfold addTask
    rw [getTasks_saveTasks _ _ h]
  · unfold updateTask
    by_cases hany : (getTasks s).any (fun t => t.id == tid) = true
    · simp only [hany, if_true]
      rw [getTasks_saveTasks _ _ h, length_updateFirst]
    · simp [Bool.eq_false_iff.mpr hany]
  · intro i hi
    unfold updateTask
    by_cases hany : (getTasks s).any (fun t => t.id == tid) = true
    · simp only [hany, if_true]
      rw [getTasks_saveTasks _ _ h]
      exact getD_updateFirst_of_ne _ _ _ _ _ (by simpa using hi)
    · simp [Bool.eq_false_iff.mpr hany]
  · unfold toggleTaskComplete
    by_cases hany : (getTasks s).any (fun t => t.id == tid) = true
    · simp only [hany, if_true]
      rw [getTasks_saveTasks _ _ h, length_updateFirst]
    · simp [Bool.eq_false_iff.mpr hany]
  · intro i hi
    unfold toggleTaskComplete
    by_cases hany : (getTasks s).any (fun t => t.id == tid) = true
    · simp only [hany, if_true]
      rw [getTasks_saveTasks _ _ h]
      exact getD_updateFirst_of_ne _ _ _ _ _ (by simpa using hi)
    · simp [Bool.eq_false_iff.mpr hany]
  · unfold deleteTask
    by_cases hlen : (((getTasks s).filter (fun t => !(t.id == tid))).length
        == (getTasks s).length) = true
    · simp only [hlen, if_true]
      exact List.Sublist.refl _
    · simp only [Bool.eq_false_iff.mpr hlen, Bool.false_eq_true, if_false]
      rw [getTasks_saveTasks _ _ h]
      exact List.filter_sublist _
  · unfold clearCompletedTasks
    rw [getTasks_saveTasks _ _ h]
    exact List.filter_sublist _

/-- Witness for C10 at a concrete two-task store. -/
theorem C10_mutations_preserve_order_witness :
    (Store.avail ⟨true, some [⟨"a", "A", none, "cat_1", .low, 3, false, 1, none⟩,
        ⟨"b", "B", none, "cat_1", .low, 4, true, 1, some 2⟩], none, none⟩ = true)
    ∧ (getTasks (addTask ⟨true, some [⟨"a", "A", none, "cat_1", .low, 3, false, 1, none⟩,
          ⟨"b", "B", none, "cat_1", .low, 4, true, 1, some 2⟩], none, none⟩
          9 "zz" ⟨"C", none, "cat_1", .low, 5⟩).2
        = getTasks ⟨true, some [⟨"a", "A", none, "cat_1", .low, 3, false, 1, none⟩,
            ⟨"b", "B", none, "cat_1", .low, 4, true, 1, some 2⟩], none, none⟩
          ++ [mkTask 9 "zz" ⟨"C", none, "cat_1", .low, 5⟩]
       ∧ (getTasks (updateTask ⟨true, some [⟨"a", "A", none, "cat_1", .low, 3, false, 1, none⟩,
            ⟨"b", "B", none, "cat_1", .low, 4, true, 1, some 2⟩], none, none⟩ "a"
            { title := some "A2" }).2).length
          = (getTasks ⟨true, some [⟨"a", "A", none, "cat_1", .low, 3, false, 1, none⟩,
              ⟨"b", "B", none, "cat_1", .low, 4, true, 1, some 2⟩], none, none⟩).length
       ∧ (∀ i : Nat, ((getTasks ⟨true, some [⟨"a", "A", none, "cat_1", .low, 3, false, 1, none⟩,
            ⟨"b", "B", none, "cat_1", .low, 4, true, 1, some 2⟩], none, none⟩).getD i
              ⟨"z", "Z", none, "cat_1", .low, 0, false, 0, none⟩).id ≠ "a" →
          (getTasks (updateTask ⟨true, some [⟨"a", "A", none, "cat_1", .low, 3, false, 1, none⟩,
            ⟨"b", "B", none, "cat_1", .low, 4, true, 1, some 2⟩], none, none⟩ "a"
            { title := some "A2" }).2).getD i ⟨"z", "Z", none, "cat_1", .low, 0, false, 0, none⟩
          = (getTasks ⟨true, some [⟨"a", "A", none, "cat_1", .low, 3, false, 1, none⟩,
              ⟨"b", "B", none, "cat_1", .low, 4, true, 1, some 2⟩], none, none⟩).getD i
              ⟨"z", "Z", none, "cat_1", .low, 0, false, 0, none⟩)
       ∧ (getTasks (toggleTaskComplete ⟨true,
            some [⟨"a", "A", none, "cat_1", .low, 3, false, 1, none⟩,
              ⟨"b", "B", none, "cat_1", .low, 4, true, 1, some 2⟩], none, none⟩ "a" 9).2).length
          = (getTasks ⟨true, some [⟨"a", "A", none, "cat_1", .low, 3, false, 1, none⟩,
              ⟨"b", "B", none, "cat_1", .low, 4, true, 1, some 2⟩], none, none⟩).length
       ∧ (∀ i : Nat, ((getTasks ⟨true, some [⟨"a", "A", none, "cat_1", .low, 3, false, 1, none⟩,
            ⟨"b", "B", none, "cat_1", .low, 4, true, 1, some 2⟩], none, none⟩).getD i
              ⟨"z", "Z", none, "cat_1", .low, 0, false, 0, none⟩).id ≠ "a" →
          (getTasks (toggleTaskComplete ⟨true,
            some [⟨"a", "A", none, "cat_1", .low, 3, false, 1, none⟩,
              ⟨"b", "B", none, "cat_1", .low, 4, true, 1, some 2⟩], none, none⟩ "a" 9).2).getD i
              ⟨"z", "Z", none, "cat_1", .low, 0, false, 0, none⟩
          = (getTasks ⟨true, some [⟨"a", "A", none, "cat_1", .low, 3, false, 1, none⟩,
              ⟨"b", "B", none, "cat_1", .low, 4, true, 1, some 2⟩], none, none⟩).getD i
              ⟨"z", "Z", none, "cat_1", .low, 0, false, 0, none⟩)
       ∧ List.Sublist (getTasks (deleteTask ⟨true,
            some [⟨"a", "A", none, "cat_1", .low, 3, false, 1, none⟩,
              ⟨"b", "B", none, "cat_1", .low, 4, true, 1, some 2⟩], none, none⟩ "a").2)
          (getTasks ⟨true, some [⟨"a", "A", none, "cat_1", .low, 3, false, 1, none⟩,
            ⟨"b", "B", none, "cat_1", .low, 4, true, 1, some 2⟩], none, none⟩)
       ∧ List.Sublist (getTasks (clearCompletedTasks ⟨true,
            some [⟨"a", "A", none, "cat_1", .low, 3, false, 1, none⟩,
              ⟨"b", "B", none, "cat_1", .low, 4, true, 1, some 2⟩], none, none⟩).2)
          (getTasks ⟨true, some [⟨"a", "A", none, "cat_1", .low, 3, false, 1, none⟩,
            ⟨"b", "B", none, "cat_1", .low, 4, true, 1, some 2⟩], none, none⟩)) :=
  ⟨rfl,
   C10_mutations_preserve_order
     ⟨true, some [⟨"a", "A", none, "cat_1", .low, 3, false, 1, none⟩,
       ⟨"b", "B", none, "cat_1", .low, 4, true, 1, some 2⟩], none, none⟩
     9 "zz" ⟨"C", none, "cat_1", .low, 5⟩ "a" { title := some "A2" }
     ⟨"z", "Z", none, "cat_1", .low, 0, false, 0, none⟩ rfl⟩

/-- Claim C2 fails on the code: `updateTask` shallow-merges arbitrary
fields, so patching only `completed := true` onto a valid incomplete task
yields a completed task with no completion timestamp, violating the
invariant. -/
theorem C2_invariant_broken_by_update :
    ((getTasks ⟨true, some [⟨"a", "A", none, "cat_1", .low, 3, false, 1, none⟩],
        none, none⟩).all taskOK = true)
    ∧ ((getTasks (updateTask
          ⟨true, some [⟨"a", "A", none, "cat_1", .low, 3, false, 1, none⟩], none, none⟩
          "a" { completed := some true }).2).all taskOK = false) :=
  ⟨by decide, by decide⟩

/-- Claim C2 amended: the invariant is preserved by `addTask`,
`toggleTaskComplete` at a time no earlier than each task's creation,
`deleteTask`, `clearCompletedTasks`, `updateTask` with a patch that leaves
`completed`, `completedAt` and `createdAt` untouched, and `importData` of a
document whose tasks themselves satisfy it — but not by arbitrary patches
or arbitrary imports. -/
theorem C2_invariant_preserved_restricted (s : Store) (now : Nat) (rand : String)
    (f : TaskFields) (tid : String) (p : TaskPatch) (d : Snapshot)
    (hOK : (getTasks s).all taskOK = true)
    (hpc : p.completed = none) (hpca : p.completedAt = none) (hpcr : p.createdAt = none)
    (hnow : (getTasks s).all (fun t => t.createdAt ≤ now) = true)
    (hd : ∀ ts : List Task, d.tasks = some ts → ts.all taskOK = true) :
    ((getTasks (addTask s now rand f).2).all taskOK = true)
    ∧ ((getTasks (updateTask s tid p).2).all taskOK = true)
    ∧ ((getTasks (toggleTaskComplete s tid now).2).all taskOK = true)
    ∧ ((getTasks (deleteTask s tid).2).all taskOK = true)
    ∧ ((getTasks (clearCompletedTasks s).2).all taskOK = true)
    ∧ ((getTasks (importData s (some d)).2).all taskOK = true) := by
  have hOK' : ∀ t ∈ getTasks s, taskOK t = true := (List.all_eq_true).mp hOK
  have hnow' : ∀ t ∈ getTasks s, t.createdAt ≤ now := by
    intro t ht
    have := (List.all_eq_true).mp hnow t ht
    simpa using this
  by_cases hav : s.avail = true
  case neg =>
    have hne : s.avail = false := Bool.eq_false_iff.mpr hav
    refine ⟨?_, ?_, ?_, ?_, ?_, ?_⟩
    · simp [addTask, saveTasks_not_avail _ _ hne, getTasks_not_avail _ hne]
    · simp [updateTask, getTasks_not_avail _ hne]
    · simp [toggleTaskComplete, getTasks_not_avail _ hne]
    · simp [deleteTask, getTasks_not_avail _ hne]
    · simp [clearCompletedTasks, saveTasks_not_avail _ _ hne, getTasks_not_avail _ hne]
    · cases hdt : d.tasks <;> cases hdc : d.categories <;> cases hds : d.settings <;>
        simp [importData, hdt, hdc, hds, saveTasks, saveCategories, saveSettings,
          getTasks, hne]
  case pos =>
  refine ⟨?_, ?_, ?_, ?_, ?_, ?_⟩
  · unfold addTask
    rw [getTasks_saveTasks _ _ hav, List.all_append]
    rw [hOK]
    simp [taskOK, mkTask]
  · unfold updateTask
    by_cases hany : (getTasks s).any (fun t => t.id == tid) = true
    · simp only [hany, if_true]
      rw [getTasks_saveTasks _ _ hav, List.all_eq_true]
      intro t ht
      rcases mem_updateFirst ht with h1 | ⟨u, hu, hpu, htu⟩
      · exact hOK' t h1
      · have happ : taskOK (applyPatch u p) = taskOK u := by
          simp [taskOK, applyPatch, hpc, hpca, hpcr]
        rw [htu, happ]
        exact hOK' u hu
    · simp only [Bool.eq_false_iff.mpr hany, Bool.false_eq_true, if_false]
      exact hOK
  · unfold toggleTaskComplete
    by_cases hany : (getTasks s).any (fun t => t.id == tid) = true
    · simp only [hany, if_true]
      rw [getTasks_saveTasks _ _ hav, List.all_eq_true]
      intro t ht
      rcases mem_updateFirst ht with h1 | ⟨u, hu, hpu, htu⟩
      · exact hOK' t h1
      · rw [htu]
        cases hu2 : u.completed
        · simp [taskOK, hu2]
          exact hnow' u hu
        · simp [taskOK, hu2]
    · simp only [Bool.eq_false_iff.mpr hany, Bool.false_eq_true, if_false]
      exact hOK
  · unfold deleteTask
    by_cases hlen : (((getTasks s).filter (fun t => !(t.id == tid))).length
        == (getTasks s).length) = true
    · simp only [hlen, if_true]
      exact hOK
    · simp only [Bool.eq_false_iff.mpr hlen, Bool.false_eq_true, if_false]
      rw [getTasks_saveTasks _ _ hav, List.all_eq_true]
      intro t ht
      exact hOK' t (List.mem_of_mem_filter ht)
  · unfold clearCompletedTasks
    rw [getTasks_saveTasks _ _ hav, List.all_eq_true]
    intro t ht
    exact hOK' t (List.mem_of_mem_filter ht)
  · cases hdt : d.tasks with
    | none => simp [importData, hdt]; exact hOK'
    | some ts =>
      cases hdc : d.categories with
      | none => simp [importData, hdt, hdc]; exact hOK'
      | some cs =>
        have hts : ts.all taskOK = true := hd ts hdt
        cases hds : d.settings <;>
          simp [importData, hdt, hdc, hds, getTasks_saveSettings,
            getTasks_saveCategories, getTasks_saveTasks _ _ hav, hts]

/-- Witness for the amended C2 at a concrete store, patch and document. -/
theorem C2_invariant_preserved_restricted_witness :
    ((getTasks ⟨true, some [⟨"a", "A", none, "cat_1", .low, 3, false, 1, none⟩],
        none, none⟩).all taskOK = true)
    ∧ (TaskPatch.completed { title := some "T2" } = none)
    ∧ (TaskPatch.completedAt { title := some "T2" } = none)
    ∧ (TaskPatch.createdAt { title := some "T2" } = none)
    ∧ ((getTasks ⟨true, some [⟨"a", "A", none, "cat_1", .low, 3, false, 1, none⟩],
        none, none⟩).all (fun t => t.createdAt ≤ 9) = true)
    ∧ (∀ ts : List Task,
        Snapshot.tasks ⟨some [], some [], none, "d", "1.0"⟩ = some ts →
        ts.all taskOK = true)
    ∧ (((getTasks (addTask ⟨true, some [⟨"a", "A", none, "cat_1", .low, 3, false, 1, none⟩],
          none, none⟩ 9 "zz" ⟨"C", none, "cat_1", .low, 5⟩).2).all taskOK = true)
       ∧ ((getTasks (updateTask ⟨true, some [⟨"a", "A", none, "cat_1", .low, 3, false, 1, none⟩],
            none, none⟩ "a" { title := some "T2" }).2).all taskOK = true)
       ∧ ((getTasks (toggleTaskComplete
            ⟨true, some [⟨"a", "A", none, "cat_1", .low, 3, false, 1, none⟩],
            none, none⟩ "a" 9).2).all taskOK = true)
       ∧ ((getTasks (deleteTask ⟨true, some [⟨"a", "A", none, "cat_1", .low, 3, false, 1, none⟩],
            none, none⟩ "a").2).all taskOK = true)
       ∧ ((getTasks (clearCompletedTasks
            ⟨true, some [⟨"a", "A", none, "cat_1", .low, 3, false, 1, none⟩],
            none, none⟩).2).all taskOK = true)
       ∧ ((getTasks (importData ⟨true, some [⟨"a", "A", none, "cat_1", .low, 3, false, 1, none⟩],
            none, none⟩ (some ⟨some [], some [], none, "d", "1.0"⟩)).2).all taskOK = true)) :=
  ⟨by decide, rfl, rfl, rfl, by decide,
   fun ts hts => by cases hts; rfl,
   C2_invariant_preserved_restricted
     ⟨true, some [⟨"a", "A", none, "cat_1", .low, 3, false, 1, none⟩], none, none⟩
     9 "zz" ⟨"C", none, "cat_1", .low, 5⟩ "a" { title := some "T2" }
     ⟨some [], some [], none, "d", "1.0"⟩
     (by decide) rfl rfl rfl (by decide)
     (fun ts hts => by cases hts; rfl)⟩

end TaskFlow
